import Mathlib

/-!
Shallow embedding of the windowing / split / configuration-replay logic of
src/tcn_sequence_models/data_processing/dataset.py (class DataSet), together
with models of the collaborator modules the class calls
(data_processing.preprocessing, data_processing.gen_sequences, utils.scaling)
which are not part of the sources; those models are marked
"Modelled from the spec" and follow the specification document.

Conventions of the embedding:
- pandas timestamps are modelled by a record holding the calendar date as an
  ordinal day number together with the month of the timestamp (the only two
  attributes the code reads, via .dt.date and .dt.month);
- a dataframe is a list of named columns over a cell type (NaN, rational
  number, string, timestamp); floats are modelled as rationals;
- a raised Python exception is an "Except PyError" error value; mutation of
  the DataSet object is explicit state passing, and methods that mutate the
  object before raising return the mutated state next to the error.
-/

attribute [local semireducible] Rat.mul Rat.add Rat.sub Rat.inv

/-- Timestamp of a row: the calendar date as an ordinal day number (what
pandas .dt.date compares) and the month of the timestamp (.dt.month). -/
structure Timestamp where
  day : Nat
  month : Nat
deriving DecidableEq, Repr

/-- One dataframe cell: missing value, numeric value (floats modelled as
rationals), string (categorical) value, or timestamp. -/
inductive Cell where
  | nan : Cell
  | num (q : ℚ) : Cell
  | str (s : String) : Cell
  | time (t : Timestamp) : Cell
deriving DecidableEq, Repr

/-- A dataframe: named columns of cells, with the default RangeIndex
(row i has index i). -/
abbrev CTable : Type := List (String × List Cell)

/-- Column lookup, df[name]; none models a KeyError. -/
def CTable.getCol (t : CTable) (name : String) : Option (List Cell) :=
  (List.find? (fun c => c.1 == name) t).map (fun c => c.2)

/-- df.shape[0]: number of rows (length of the first column; all columns of a
pandas dataframe have equal length). -/
def CTable.nrows (t : CTable) : Nat :=
  match t with
  | [] => 0
  | c :: _ => c.2.length

/-- Whether the dataframe has a column of the given name. -/
def CTable.hasCol (t : CTable) (name : String) : Bool :=
  (t.getCol name).isSome

/-- Python exceptions relevant to dataset.py, plus the two error kinds the
specification names (DateNotFoundError, ConfigLoadError) so that claims about
them can be stated; dataset.py itself never constructs the latter two. -/
inductive PyError where
  | keyError (k : String) : PyError
  | indexError : PyError
  | typeError (msg : String) : PyError
  | valueError (msg : String) : PyError
  | fileNotFoundError (file : String) : PyError
  | jsonDecodeError (file : String) : PyError
  | unpicklingError (file : String) : PyError
  | insufficientDataError : PyError
  | dateNotFoundError : PyError
  | configLoadError (artifact : String) : PyError
deriving DecidableEq, Repr

deriving instance DecidableEq for Except

/-- The boolean mask df[dateCol].dt.date < splitDate evaluated at row i
(false on a non-timestamp cell; pandas would fail on .dt of such a column,
but every use in the claims applies it to a timestamp column). -/
def rowBefore (cells : List Cell) (splitDate : Nat) (i : Nat) : Bool :=
  match cells[i]? with
  | some (Cell.time t) => decide (t.day < splitDate)
  | _ => false

/-- Row indices selected by df[df[dateCol].dt.date < splitDate].index : the
boolean-mask selection of a RangeIndex dataframe keeps exactly the row
indices whose mask entry is true, in increasing order. -/
def precedingIndices (cells : List Cell) (splitDate : Nat) : List Nat :=
  (List.range cells.length).filter (rowBefore cells splitDate)

/-- df[df[dateCol].dt.date < splitDate].index[-1] : the last (greatest)
selected row index; none models the IndexError of [-1] on an empty index. -/
def lastIndexBefore (cells : List Cell) (splitDate : Nat) : Option Nat :=
  (precedingIndices cells splitDate).getLast?

/-- The boolean mask df[dateCol].dt.month.isin(months) at row i. -/
def rowMonthIn (cells : List Cell) (months : List Nat) (i : Nat) : Bool :=
  match cells[i]? with
  | some (Cell.time t) => months.contains t.month
  | _ => false

/-- Row indices whose month is in the allowed set:
df[df[dateCol].dt.month.isin(months)].index . -/
def monthIndices (cells : List Cell) (months : List Nat) : List Nat :=
  (List.range cells.length).filter (rowMonthIn cells months)

/-- dataset.py lines 418-421 (shared computation with lines 131-135): locate
i_split = df[df[date_col].dt.date < split_date].index[-1] and convert it to
split_ratio = i_split / df.shape[0]. KeyError when the column is absent,
IndexError when no row precedes the date. -/
def dateSplitRatio (df : CTable) (date_col : String) (splitDate : Nat) :
    Except PyError ℚ :=
  match df.getCol date_col with
  | none => Except.error (PyError.keyError date_col)
  | some cells =>
    match lastIndexBefore cells splitDate with
    | none => Except.error PyError.indexError
    | some i => Except.ok ((i : ℚ) / (df.nrows : ℚ))

/-- dataset.py lines 131-135: the split-ratio computation of DataSet.process
when split_date is given. The column name "date / time" is hard-coded in the
source; the time_col argument of process is stored on self but not consulted
here. -/
def processSplitRatio (df : CTable) (time_col : String) (splitDate : Nat) :
    Except PyError ℚ :=
  dateSplitRatio df "date / time" splitDate

/-- A value of numpy-array kind appearing in the X list of a DataSet: rank-3
(windows x steps x features), rank-2 (windows x steps) or rank-1 (windows)
arrays of rationals. -/
inductive NArr where
  | arr3 (a : List (List (List ℚ))) : NArr
  | arr2 (a : List (List ℚ)) : NArr
  | arr1 (a : List ℚ) : NArr
deriving DecidableEq, Repr

/-- Leading ("window count") dimension of an array. -/
def NArr.shape0 : NArr → Nat
  | NArr.arr3 a => a.length
  | NArr.arr2 a => a.length
  | NArr.arr1 a => a.length

/-- arr[:n] along the leading dimension. -/
def NArr.takeLead (n : Nat) : NArr → NArr
  | NArr.arr3 a => NArr.arr3 (a.take n)
  | NArr.arr2 a => NArr.arr2 (a.take n)
  | NArr.arr1 a => NArr.arr1 (a.take n)

/-- arr[n:] along the leading dimension. -/
def NArr.dropLead (n : Nat) : NArr → NArr
  | NArr.arr3 a => NArr.arr3 (a.drop n)
  | NArr.arr2 a => NArr.arr2 (a.drop n)
  | NArr.arr1 a => NArr.arr1 (a.drop n)

/-- Resolution of one (possibly negative) integer index into a leading
dimension of length n, with numpy semantics: a negative index counts from the
end; none models the IndexError of an index out of bounds. -/
def resolveIdx (n : Nat) (i : ℤ) : Option Nat :=
  let j : ℤ := if i < 0 then i + (n : ℤ) else i
  if 0 ≤ j ∧ j < (n : ℤ) then some j.toNat else none

/-- numpy fancy indexing xs[idxs] on a list with integer indices; none models
an IndexError on any out-of-bounds index. -/
def fancyIdx {α : Type} (xs : List α) (idxs : List ℤ) : Option (List α) :=
  idxs.mapM (fun i => (resolveIdx xs.length i).bind (fun j => xs[j]?))

/-- Fancy indexing on the leading dimension of an array. -/
def NArr.fancy (idxs : List ℤ) : NArr → Option NArr
  | NArr.arr3 a => (fancyIdx a idxs).map NArr.arr3
  | NArr.arr2 a => (fancyIdx a idxs).map NArr.arr2
  | NArr.arr1 a => (fancyIdx a idxs).map NArr.arr1

/-- Modelled from the spec: gen_sequences.train_test_split (module
data_processing.gen_sequences is not among the sources). Per spec section
4.2, the first round(split_ratio * window_count) windows of every array go to
the train partition and the remainder to the test partition, order
preserved. Rounding is round-half-up on rationals (the tie behaviour of
Python round is immaterial to every instance considered here). -/
def roundHalfUp (q : ℚ) : Nat := (Rat.floor (q + 1/2)).toNat

/-- Modelled from the spec: the ratio-based split of gen_sequences; the
window count is the shared leading dimension, read off y. -/
def trainTestSplit (X : List NArr) (y : List (List ℚ)) (ratio : ℚ) :
    List NArr × List (List ℚ) × List NArr × List (List ℚ) :=
  let nTrain := roundHalfUp (ratio * (y.length : ℚ))
  (X.map (NArr.takeLead nTrain), y.take nTrain,
   X.map (NArr.dropLead nTrain), y.drop nTrain)

/-- list(range(1, 13)): the default considered_months. -/
def allMonths : List Nat := List.range' 1 12

/-- dataset.py line 427-432: i_months after the removal of indexes that are
too large, i.e. df[df[date_col].dt.month.isin(months)].index restricted to
indices below the total window count X_train[0].shape[0] + X_test[0].shape[0]. -/
def iMonthsOf (cells : List Cell) (months : List Nat) (lenTr lenTe : Nat) :
    List Nat :=
  (monthIndices cells months).filter (fun i => decide (i < lenTr + lenTe))

/-- dataset.py line 434: i_train = i_months[i_months < X_train[0].shape[0]]. -/
def iTrainOf (cells : List Cell) (months : List Nat) (lenTr lenTe : Nat) :
    List Nat :=
  (iMonthsOf cells months lenTr lenTe).filter (fun i => decide (i < lenTr))

/-- dataset.py line 435:
i_test = i_months[i_months >= i_train[-1]] - X_train[0].shape[0], given the
value lastTr of i_train[-1]. The subtraction is over the integers: numpy
keeps negative entries (and later resolves them from the end of the array). -/
def iTestOf (cells : List Cell) (months : List Nat) (lenTr lenTe : Nat)
    (lastTr : Nat) : List ℤ :=
  ((iMonthsOf cells months lenTr lenTe).filter
      (fun i => decide (lastTr ≤ i))).map
    (fun i => Int.ofNat i - Int.ofNat lenTr)

/-- dataset.py lines 427-446: the month-filter step of
DataSet.train_test_split_date, applied after the ratio split. Mirrors the
source exactly: i_months is masked to indices below the total window count,
i_train keeps those below the train window count, i_train[-1] raises
IndexError when empty, and i_test subtracts the train window count from the
month-matching indices that are at least i_train[-1] (so it can hold
negative values, which numpy resolves from the end of the test arrays).
X_train[0] / X_test[0] on an empty X list also raise IndexError. -/
def monthFilterStep (cells : List Cell) (months : List Nat)
    (Xtr : List NArr) (ytr : List (List ℚ))
    (Xte : List NArr) (yte : List (List ℚ)) :
    Except PyError (List NArr × List (List ℚ) × List NArr × List (List ℚ)) :=
  match Xtr.head?, Xte.head? with
  | none, _ => Except.error PyError.indexError
  | _, none => Except.error PyError.indexError
  | some xtr0, some xte0 =>
    let lenTr := xtr0.shape0
    let lenTe := xte0.shape0
    match (iTrainOf cells months lenTr lenTe).getLast? with
    | none => Except.error PyError.indexError
    | some lastTr =>
      let iTest : List ℤ := iTestOf cells months lenTr lenTe lastTr
      let iTrainZ : List ℤ :=
        (iTrainOf cells months lenTr lenTe).map Int.ofNat
      match fancyIdx ytr iTrainZ with
      | none => Except.error PyError.indexError
      | some ytrM =>
        match fancyIdx yte iTest with
        | none => Except.error PyError.indexError
        | some yteM =>
          match Xtr.mapM (NArr.fancy iTrainZ) with
          | none => Except.error PyError.indexError
          | some XtrM =>
            match Xte.mapM (NArr.fancy iTest) with
            | none => Except.error PyError.indexError
            | some XteM => Except.ok (XtrM, ytrM, XteM, yteM)

/-- Encoding parameters of one temporal encoding, as fitted by
preprocessing.add_temporal_encoding. Modelled from the spec: the module
data_processing.preprocessing is not among the sources; the spec describes
the parameters as an opaque fitted record mapping time keys to encoded
values, serialized inside the dataset_config document. -/
abbrev TemporalEncoding : Type := List (Nat × ℚ)

/-- Modelled from the spec: fitted state of preprocessing.NaNHandler (not
among the sources). Per spec, the fit records which columns are dropped for
having too many NaNs; transform imputes remaining NaNs from the last
observed value (dataset.py docstring: fill NaNs by using the last observed
value in the column). -/
structure NaNHandler where
  dropCols : List String
deriving DecidableEq, Repr

/-- Modelled from the spec: fitted state of preprocessing.OneHotEncoder (not
among the sources). Per spec, fit records a category-to-column mapping;
transform adds one indicator column per (column, category) pair. -/
structure OneHotEncoder where
  mapping : List (String × String)
deriving DecidableEq, Repr

/-- Modelled from the spec: fitted state of a utils.scaling scaler (not
among the sources). Per spec, standardization keeps a mean and a deviation
per scaled column. -/
structure Scaler where
  params : List (String × ℚ × ℚ)
deriving DecidableEq, Repr

/-- The DataSet object state: the attributes set by __init__ (dataset.py
lines 32-46) plus time_col, which process assigns. Attributes that Python
initializes to None are Options. -/
structure DataSet where
  df_raw : Option CTable
  df_processed : Option CTable
  features_input_encoder : Option (List String)
  features_input_decoder : Option (List String)
  feature_target : Option String
  input_seq_len : Option Nat
  output_seq_len : Option Nat
  temporal_encodings : List (String × TemporalEncoding)
  scaler_X : Option Scaler
  scaler_y : Option Scaler
  X : Option (List NArr)
  y : Option (List (List ℚ))
  autoregressive : Bool
  nan_handler : Option NaNHandler
  one_hot_encoder : Option OneHotEncoder
  time_col : Option String
deriving DecidableEq

/-- dataset.py lines 407-446: DataSet.train_test_split_date. Computes the
split ratio from the split date, applies the ratio split of
gen_sequences.train_test_split, then the month filter. Reading columns of a
None df_processed, or splitting None X / y, raises a TypeError. -/
def trainTestSplitDate (s : DataSet) (date_col : String) (splitDate : Nat)
    (considered_months : Option (List Nat)) :
    Except PyError (List NArr × List (List ℚ) × List NArr × List (List ℚ)) :=
  let months := considered_months.getD allMonths
  match s.df_processed with
  | none => Except.error (PyError.typeError "df_processed is None")
  | some df =>
    match df.getCol date_col with
    | none => Except.error (PyError.keyError date_col)
    | some cells =>
      match lastIndexBefore cells splitDate with
      | none => Except.error PyError.indexError
      | some i =>
        let ratio : ℚ := (i : ℚ) / (df.nrows : ℚ)
        match s.X, s.y with
        | some X, some y =>
          let parts := trainTestSplit X y ratio
          monthFilterStep cells months parts.1 parts.2.1 parts.2.2.1 parts.2.2.2
        | _, _ => Except.error (PyError.typeError "X or y is None")

/-- JSON values as dumped into dataset_config.json by save_dataset_config
(dataset.py lines 303-314), one constructor per value shape the code writes.
Python serializes the temporal-encoding tuples as JSON arrays and returns
lists on load; indexing into them is unchanged, so the pair structure is
kept here. The typed readers below are stricter than Python, which assigns
whatever value the document holds without checking; every document written
by save_dataset_config is well-typed, and no claim concerns ill-typed
documents. -/
inductive JVal where
  | jStrListOpt (v : Option (List String)) : JVal
  | jStrOpt (v : Option String) : JVal
  | jTencs (v : List (String × TemporalEncoding)) : JVal
  | jBool (v : Bool) : JVal
  | jNatOpt (v : Option Nat) : JVal
deriving DecidableEq

/-- A persisted artifact at a path: missing file, unreadable (malformed)
content, or good content. -/
inductive Artifact (α : Type) where
  | missing : Artifact α
  | corrupt : Artifact α
  | good (a : α) : Artifact α
deriving DecidableEq

/-- The configuration directory written by save_dataset_config and read by
load_dataset_config: the dataset_config.json document and the four pickled
transformers. -/
structure Store where
  dataset_config : Artifact (List (String × JVal))
  nanHandlerFile : Artifact (Option NaNHandler)
  oneHotEncoderFile : Artifact (Option OneHotEncoder)
  scalerXFile : Artifact (Option Scaler)
  scalerYFile : Artifact (Option Scaler)
deriving DecidableEq

/-- dataset.py lines 296-333: DataSet.save_dataset_config. Writes the json
document with the seven configuration entries (in source order) and pickles
the four transformers (pickling a None attribute stores None). -/
def saveDatasetConfig (s : DataSet) : Store :=
  { dataset_config := Artifact.good
      [("features_input_encoder", JVal.jStrListOpt s.features_input_encoder),
       ("features_input_decoder", JVal.jStrListOpt s.features_input_decoder),
       ("feature_target", JVal.jStrOpt s.feature_target),
       ("temporal_encoding", JVal.jTencs s.temporal_encodings),
       ("autoregressive", JVal.jBool s.autoregressive),
       ("input_seq_len", JVal.jNatOpt s.input_seq_len),
       ("output_seq_len", JVal.jNatOpt s.output_seq_len)],
    nanHandlerFile := Artifact.good s.nan_handler,
    oneHotEncoderFile := Artifact.good s.one_hot_encoder,
    scalerXFile := Artifact.good s.scaler_X,
    scalerYFile := Artifact.good s.scaler_y }

/-- config_dict[k]: dictionary lookup, KeyError when absent. -/
def jGet (d : List (String × JVal)) (k : String) : Except PyError JVal :=
  match List.find? (fun p => p.1 == k) d with
  | none => Except.error (PyError.keyError k)
  | some p => Except.ok p.2

/-- Typed read of an optional string-list entry. -/
def jGetStrListOpt (d : List (String × JVal)) (k : String) :
    Except PyError (Option (List String)) :=
  match jGet d k with
  | Except.error e => Except.error e
  | Except.ok (JVal.jStrListOpt v) => Except.ok v
  | Except.ok _ => Except.error (PyError.typeError k)

/-- Typed read of an optional string entry. -/
def jGetStrOpt (d : List (String × JVal)) (k : String) :
    Except PyError (Option String) :=
  match jGet d k with
  | Except.error e => Except.error e
  | Except.ok (JVal.jStrOpt v) => Except.ok v
  | Except.ok _ => Except.error (PyError.typeError k)

/-- Typed read of the temporal-encodings entry. -/
def jGetTencs (d : List (String × JVal)) (k : String) :
    Except PyError (List (String × TemporalEncoding)) :=
  match jGet d k with
  | Except.error e => Except.error e
  | Except.ok (JVal.jTencs v) => Except.ok v
  | Except.ok _ => Except.error (PyError.typeError k)

/-- Typed read of a boolean entry. -/
def jGetBool (d : List (String × JVal)) (k : String) : Except PyError Bool :=
  match jGet d k with
  | Except.error e => Except.error e
  | Except.ok (JVal.jBool v) => Except.ok v
  | Except.ok _ => Except.error (PyError.typeError k)

/-- Typed read of an optional integer entry. -/
def jGetNatOpt (d : List (String × JVal)) (k : String) :
    Except PyError (Option Nat) :=
  match jGet d k with
  | Except.error e => Except.error e
  | Except.ok (JVal.jNatOpt v) => Except.ok v
  | Except.ok _ => Except.error (PyError.typeError k)

/-- open(file, rb) followed by pickle.load: FileNotFoundError on a missing
file, an unpickling error on malformed content. -/
def unpickleFile {α : Type} (a : Artifact α) (file : String) : Except PyError α :=
  match a with
  | Artifact.missing => Except.error (PyError.fileNotFoundError file)
  | Artifact.corrupt => Except.error (PyError.unpicklingError file)
  | Artifact.good v => Except.ok v

/-- dataset.py lines 335-366: DataSet.load_dataset_config. Reads the json
document and assigns the seven configuration attributes one by one in source
order, then unpickles the four transformers in source order. Each step that
fails raises at that point; attributes assigned by earlier steps keep their
new values on the returned (mutated) state, exactly as on the Python object
when the exception propagates. -/
def loadDatasetConfig (s : DataSet) (st : Store) :
    Except PyError Unit × DataSet :=
  match st.dataset_config with
  | Artifact.missing =>
      (Except.error (PyError.fileNotFoundError "dataset_config.json"), s)
  | Artifact.corrupt =>
      (Except.error (PyError.jsonDecodeError "dataset_config.json"), s)
  | Artifact.good d =>
    match jGetStrListOpt d "features_input_encoder" with
    | Except.error e => (Except.error e, s)
    | Except.ok v1 =>
    let s1 := { s with features_input_encoder := v1 }
    match jGetStrListOpt d "features_input_decoder" with
    | Except.error e => (Except.error e, s1)
    | Except.ok v2 =>
    let s2 := { s1 with features_input_decoder := v2 }
    match jGetStrOpt d "feature_target" with
    | Except.error e => (Except.error e, s2)
    | Except.ok v3 =>
    let s3 := { s2 with feature_target := v3 }
    match jGetTencs d "temporal_encoding" with
    | Except.error e => (Except.error e, s3)
    | Except.ok v4 =>
    let s4 := { s3 with temporal_encodings := v4 }
    match jGetBool d "autoregressive" with
    | Except.error e => (Except.error e, s4)
    | Except.ok v5 =>
    let s5 := { s4 with autoregressive := v5 }
    match jGetNatOpt d "input_seq_len" with
    | Except.error e => (Except.error e, s5)
    | Except.ok v6 =>
    let s6 := { s5 with input_seq_len := v6 }
    match jGetNatOpt d "output_seq_len" with
    | Except.error e => (Except.error e, s6)
    | Except.ok v7 =>
    let s7 := { s6 with output_seq_len := v7 }
    match unpickleFile st.nanHandlerFile "NaNHandler.pkl" with
    | Except.error e => (Except.error e, s7)
    | Except.ok v8 =>
    let s8 := { s7 with nan_handler := v8 }
    match unpickleFile st.oneHotEncoderFile "OneHotEncoder.pkl" with
    | Except.error e => (Except.error e, s8)
    | Except.ok v9 =>
    let s9 := { s8 with one_hot_encoder := v9 }
    match unpickleFile st.scalerXFile "scaler_X.pkl" with
    | Except.error e => (Except.error e, s9)
    | Except.ok v10 =>
    let s10 := { s9 with scaler_X := v10 }
    match unpickleFile st.scalerYFile "scaler_y.pkl" with
    | Except.error e => (Except.error e, s10)
    | Except.ok v11 => (Except.ok (), { s10 with scaler_y := v11 })

/-- Forward fill of one column: a NaN cell takes the last observed value
(dataset.py docstring line 86: fill NaNs by using the last observed value in
the column). -/
def ffillCol : List Cell → Option Cell → List Cell
  | [], _ => []
  | Cell.nan :: rest, some lastc => lastc :: ffillCol rest (some lastc)
  | Cell.nan :: rest, none => Cell.nan :: ffillCol rest none
  | c :: rest, _ => c :: ffillCol rest (some c)

/-- Modelled from the spec: preprocessing.NaNHandler.transform (module not
among the sources). Drops the columns recorded at fit time and forward-fills
the NaNs of the remaining columns. -/
def NaNHandler.transform (h : NaNHandler) (t : CTable) : CTable :=
  (List.filter (fun c => !(h.dropCols.contains c.1)) t).map
    (fun c => (c.1, ffillCol c.2 none))

/-- Modelled from the spec: preprocessing.OneHotEncoder.transform (module not
among the sources). Adds one indicator column per fitted (column, category)
pair. -/
def OneHotEncoder.transform (e : OneHotEncoder) (t : CTable) : CTable :=
  t ++ e.mapping.map (fun p =>
    (p.1 ++ "_" ++ p.2,
     match t.getCol p.1 with
     | some cells => cells.map (fun c =>
         if c = Cell.str p.2 then Cell.num 1 else Cell.num 0)
     | none => (List.range t.nrows).map (fun _ => Cell.nan)))

/-- Modelled from the spec: application of a fitted utils.scaling scaler
(module not among the sources): every column with fitted parameters is
standardized with the stored mean and deviation. -/
def Scaler.transform (sc : Scaler) (t : CTable) : CTable :=
  t.map (fun c =>
    match List.find? (fun p => p.1 == c.1) sc.params with
    | some p => (c.1, c.2.map (fun x =>
        match x with
        | Cell.num q => Cell.num ((q - p.2.1) / p.2.2)
        | x => x))
    | none => c)

/-- Encoding value stored for a time key, default 0. -/
def TemporalEncoding.valueAt (enc : TemporalEncoding) (k : Nat) : ℚ :=
  match List.find? (fun p => p.1 == k) enc with
  | some p => p.2
  | none => 0

/-- Modelled from the spec: preprocessing.add_temporal_encoding in replay
mode (dataset.py lines 245-249 pass only the stored mode and encoding):
appends the column temporal_encoding_<mode>, computed by applying the stored
encoding to the time column. -/
def addTemporalEncoding (t : CTable) (mode : String) (enc : TemporalEncoding) :
    CTable :=
  t ++ [("temporal_encoding_" ++ mode,
    match t.getCol "date / time" with
    | some cells => cells.map (fun c =>
        match c with
        | Cell.time ts => Cell.num (enc.valueAt ts.month)
        | _ => Cell.nan)
    | none => (List.range t.nrows).map (fun _ => Cell.nan))]

/-- The five aligned arrays produced by the sequence extractor (spec section
4.1 and section 3, Sequence Bundle). -/
structure SeqBundle where
  XEncoder : List (List (List ℚ))
  XDecoder : List (List (List ℚ))
  y : List (List ℚ)
  yShifted : List (List ℚ)
  yLast : List ℚ
deriving DecidableEq, Repr

/-- Numeric reading of a cell (numpy materializes selected cells as floats;
a non-numeric cell inside an extracted window does not occur in any scenario
of the claims and reads as 0). -/
def Cell.toQ : Cell → ℚ
  | Cell.num q => q
  | _ => 0

/-- Value of the table at column col, row r, as a number. -/
def cellAt (t : CTable) (col : String) (r : Nat) : ℚ :=
  match t.getCol col with
  | some cells => ((cells[r]?).map Cell.toQ).getD 0
  | none => 0

/-- Modelled from the spec (section 4.1):
gen_sequences.extract_sequences_encoder_decoder at stride 1 (the only stride
dataset.py uses). For each start index w such that rows [w, w+Li+Lo) lie in
the table: the encoder window is rows [w, w+Li) over the encoder features,
the decoder and target windows are rows [w+Li, w+Li+Lo), y_last is the
target at row w+Li-1, and y_shifted is the target window shifted one step
earlier. The window count is N - Li - Lo + 1; when it is non-positive the
extraction fails (InsufficientDataError). -/
def extractSequences (t : CTable) (featsEnc featsDec : List String)
    (target : String) (li lo : Nat) : Except PyError SeqBundle :=
  let n := t.nrows
  if n + 1 ≤ li + lo then Except.error PyError.insufficientDataError
  else
    let count := n + 1 - li - lo
    Except.ok
      { XEncoder := (List.range count).map (fun w =>
          (List.range li).map (fun j => featsEnc.map (fun f => cellAt t f (w + j)))),
        XDecoder := (List.range count).map (fun w =>
          (List.range lo).map (fun j => featsDec.map (fun f => cellAt t f (w + li + j)))),
        y := (List.range count).map (fun w =>
          (List.range lo).map (fun j => cellAt t target (w + li + j))),
        yShifted := (List.range count).map (fun w =>
          (List.range lo).map (fun j => cellAt t target (w + li + j - 1))),
        yLast := (List.range count).map (fun w => cellAt t target (w + li - 1)) }

/-- dataset.py lines 197-205: the X attribute set by process. It is always
the four-element list [X_encoder, X_decoder, y_shifted, y_last]: the branch
on the autoregressive flag (lines 202-204) is commented out in the source,
so the flag argument does not influence the result. -/
def processXAssignment (autoregressiive : Bool) (b : SeqBundle) : List NArr :=
  [NArr.arr3 b.XEncoder, NArr.arr3 b.XDecoder, NArr.arr2 b.yShifted,
   NArr.arr1 b.yLast]

/-- dataset.py lines 289-292: the X attribute set by process_from_config -
[X_encoder, X_decoder, y_last] when self.autoregressive holds, otherwise
[X_encoder, X_decoder]. -/
def fromConfigXAssignment (autoregressive : Bool) (b : SeqBundle) : List NArr :=
  if autoregressive then
    [NArr.arr3 b.XEncoder, NArr.arr3 b.XDecoder, NArr.arr1 b.yLast]
  else
    [NArr.arr3 b.XEncoder, NArr.arr3 b.XDecoder]

/-- Temporal-encoding loop of process_from_config (dataset.py lines
244-251): threads the processed table and appends each temporal feature name
to both feature lists. -/
def temporalLoop : List (String × TemporalEncoding) → CTable → List String →
    List String → CTable × List String × List String
  | [], t, fie, fid => (t, fie, fid)
  | (mode, enc) :: rest, t, fie, fid =>
      temporalLoop rest (addTemporalEncoding t mode enc)
        (fie ++ ["temporal_encoding_" ++ mode])
        (fid ++ ["temporal_encoding_" ++ mode])

/-- dataset.py lines 242-294: the deterministic replay steps of
process_from_config after the configuration is loaded, as a function of
exactly the attributes read there: feature lists, target, temporal
encodings, autoregressive flag, window lengths, the four transformers, and
the processed table. Using a None attribute raises a TypeError, as in
Python. Returns the updated feature lists, the transformed table, X and y. -/
def replayCore (fie fid : Option (List String)) (ft : Option String)
    (tencs : List (String × TemporalEncoding)) (ar : Bool)
    (li lo : Option Nat) (nh : Option NaNHandler) (ohe : Option OneHotEncoder)
    (sx sy : Option Scaler) (dfp : Option CTable) :
    Except PyError
      (List String × List String × CTable × List NArr × List (List ℚ)) :=
  match fie, fid, ft, li, lo, nh, ohe, sx, sy, dfp with
  | some fie, some fid, some ft, some li, some lo, some nh, some ohe,
      some sx, some sy, some dfp =>
    let step1 := temporalLoop tencs dfp fie fid
    let t2 := nh.transform step1.1
    let t3 := ohe.transform t2
    let t4 := sx.transform t3
    let t5 := sy.transform t4
    match extractSequences t5 step1.2.1 step1.2.2 ft li lo with
    | Except.error e => Except.error e
    | Except.ok b =>
        Except.ok (step1.2.1, step1.2.2, t5, fromConfigXAssignment ar b, b.y)
  | _, _, _, _, _, _, _, _, _, _ =>
    Except.error (PyError.typeError "attribute is None")

/-- The replay steps read off a DataSet state (process_from_config after the
configuration was loaded, dataset.py lines 242-294). -/
def configReplaySteps (s : DataSet) :
    Except PyError
      (List String × List String × CTable × List NArr × List (List ℚ)) :=
  replayCore s.features_input_encoder s.features_input_decoder
    s.feature_target s.temporal_encodings s.autoregressive s.input_seq_len
    s.output_seq_len s.nan_handler s.one_hot_encoder s.scaler_X s.scaler_y
    s.df_processed

/-- dataset.py lines 209-294: DataSet.process_from_config. The input_seq_len
and output_seq_len arguments are assigned to self first (lines 235-238), and
only then is the stored configuration loaded (line 240), which overwrites
both attributes with the stored values (lines 351-352); the replay steps
then run on the resulting state. Returns the method outcome next to the
final object state. -/
def processFromConfig (s : DataSet) (st : Store)
    (input_seq_len output_seq_len : Option Nat) :
    Except PyError Unit × DataSet :=
  let sa := match input_seq_len with
    | some v => { s with input_seq_len := some v }
    | none => s
  let sb := match output_seq_len with
    | some v => { sa with output_seq_len := some v }
    | none => sa
  match loadDatasetConfig sb st with
  | (Except.error e, s1) => (Except.error e, s1)
  | (Except.ok _, s1) =>
    match configReplaySteps s1 with
    | Except.error e => (Except.error e, s1)
    | Except.ok r =>
      (Except.ok (), { s1 with
        features_input_encoder := some r.1,
        features_input_decoder := some r.2.1,
        df_processed := some r.2.2.1,
        X := some r.2.2.2.1,
        y := some r.2.2.2.2 })

/-- A filter over positions: the sublist of the entries whose index
(counting from k) satisfies p. filterIdx p xs 0 is the subsequence of the
windows of xs whose start index satisfies p. -/
def filterIdx {α : Type} (p : Nat → Bool) : List α → Nat → List α
  | [], _ => []
  | x :: xs, k =>
      if p k then x :: filterIdx p xs (k + 1) else filterIdx p xs (k + 1)

/-- dataset.py lines 20-46: DataSet.__init__(df). Every attribute starts as
None (respectively [] for temporal_encodings and False for autoregressive);
df_raw is the given dataframe. -/
def DataSet.init (df : CTable) : DataSet :=
  { df_raw := some df, df_processed := none, features_input_encoder := none,
    features_input_decoder := none, feature_target := none,
    input_seq_len := none, output_seq_len := none, temporal_encodings := [],
    scaler_X := none, scaler_y := none, X := none, y := none,
    autoregressive := false, nan_handler := none, one_hot_encoder := none,
    time_col := none }

/-- Ten daily timestamps, days 0..9; only row 2 falls in month 1, every
other row in month 2. Concrete input for the month-filter scenarios. -/
def cells10 : List Cell :=
  (List.range 10).map (fun i => Cell.time ⟨i, if i = 2 then 1 else 2⟩)

/-- One-column dataframe over cells10. -/
def table10 : CTable := [("date / time", cells10)]

/-- Ten window tags: the X array entry tags window i with the value 10+i. -/
def ds10X : List NArr :=
  [NArr.arr1 ((List.range 10).map (fun i => ((10 + i : Nat) : ℚ)))]

/-- Ten target windows: y tags window i with [i]. -/
def ds10Y : List (List ℚ) := (List.range 10).map (fun i => [((i : Nat) : ℚ)])

/-- A processed DataSet over table10 carrying ten aligned windows. -/
def ds10 : DataSet :=
  { DataSet.init table10 with
    df_processed := some table10,
    X := some ds10X,
    y := some ds10Y }

/-- One hundred daily timestamps, days 0..99 (row i carries day i). -/
def cells100 : List Cell := (List.range 100).map (fun i => Cell.time ⟨i, 1⟩)

/-- One-column dataframe over cells100: the 100-row table of the concrete
split-date scenario. -/
def table100 : CTable := [("date / time", cells100)]

/-- Five rows whose days 5..9 all lie after split date 3. -/
def cellsLate : List Cell := (List.range 5).map (fun i => Cell.time ⟨i + 5, 1⟩)

/-- A processed DataSet over the late rows, with windows present. -/
def dsLate : DataSet :=
  { DataSet.init [("date / time", cellsLate)] with
    df_processed := some [("date / time", cellsLate)],
    X := some [NArr.arr1 ((List.range 5).map (fun i => ((i : Nat) : ℚ)))],
    y := some ((List.range 5).map (fun i => [((i : Nat) : ℚ)])) }

/-- A fitted DataSet state: every persisted attribute holds a fitted value
(features, target, one temporal encoding, window lengths 2/1, the four
transformers), as left behind by a successful process pass. -/
def sFit : DataSet :=
  { DataSet.init table10 with
    df_processed := some table10,
    features_input_encoder := some ["a"],
    features_input_decoder := some ["b"],
    feature_target := some "tg",
    input_seq_len := some 2,
    output_seq_len := some 1,
    temporal_encodings := [("months", [(1, (1 : ℚ)/2)])],
    scaler_X := some ⟨[("a", 1, 2)]⟩,
    scaler_y := some ⟨[("tg", 0, 1)]⟩,
    autoregressive := true,
    nan_handler := some ⟨["junk"]⟩,
    one_hot_encoder := some ⟨[("c", "red")]⟩ }

/-- A fresh DataSet (no raw data loaded): the state before any processing. -/
def sBlank : DataSet := DataSet.init []

/-- A fresh DataSet whose df_processed coincides with the fitted state's
df_processed. -/
def dsBlank2 : DataSet := { sBlank with df_processed := some table10 }

/-- The store written by saving the fitted state, with the pickled
NaNHandler artifact removed. -/
def storeMissingNan : Store :=
  { saveDatasetConfig sFit with nanHandlerFile := Artifact.missing }

/-- A ten-row dataframe with the time column and the three numeric columns
the fitted configuration refers to. -/
def replayTable : CTable :=
  [("date / time", cells10),
   ("a", (List.range 10).map (fun i => Cell.num ((i : Nat) : ℚ))),
   ("b", (List.range 10).map (fun i => Cell.num (((2 * i : Nat) : ℚ)))),
   ("tg", (List.range 10).map (fun i => Cell.num (((3 * i : Nat) : ℚ))))]

/-- A fresh DataSet whose df_processed is the ten-row replay table. -/
def dsReplay : DataSet := { sBlank with df_processed := some replayTable }

/-! Helper lemmas shared by the claim theorems. -/

/-- On a strictly increasing list, the last element bounds every member. -/
theorem pairwise_getLast_max {l : List Nat} (hp : l.Pairwise (· < ·))
    {a : Nat} (h : l.getLast? = some a) : ∀ b ∈ l, b ≤ a := by
  rcases List.getLast?_eq_some_iff.mp h with ⟨ys, rfl⟩
  intro b hb
  rcases List.mem_append.mp hb with h1 | h2
  · exact Nat.le_of_lt
      ((List.pairwise_append.mp hp).2.2 b h1 a (List.mem_singleton.mpr rfl))
  · exact Nat.le_of_eq (List.mem_singleton.mp h2)

/-- Membership in the preceding-row index list. -/
theorem mem_precedingIndices {cells : List Cell} {d i : Nat} :
    i ∈ precedingIndices cells d ↔
      i < cells.length ∧ rowBefore cells d i = true := by
  simp [precedingIndices, List.mem_filter, List.mem_range]

/-- The preceding-row index list is strictly increasing. -/
theorem precedingIndices_pairwise (cells : List Cell) (d : Nat) :
    (precedingIndices cells d).Pairwise (· < ·) :=
  (List.pairwise_lt_range _).filter _

/-- Characterization of index[-1] over the rows preceding the split date: it
is a row of the frame, its date precedes the split date, and it is the
greatest such row index. -/
theorem lastIndexBefore_spec {cells : List Cell} {d i : Nat}
    (h : lastIndexBefore cells d = some i) :
    i < cells.length ∧ rowBefore cells d i = true ∧
      ∀ j, j < cells.length → rowBefore cells d j = true → j ≤ i := by
  have hmem : i ∈ precedingIndices cells d := by
    rcases List.getLast?_eq_some_iff.mp h with ⟨ys, hys⟩
    rw [hys]
    exact List.mem_append.mpr (Or.inr (List.mem_singleton.mpr rfl))
  have h1 := mem_precedingIndices.mp hmem
  refine ⟨h1.1, h1.2, fun j hj hbj => ?_⟩
  exact pairwise_getLast_max (precedingIndices_pairwise cells d) h j
    (mem_precedingIndices.mpr ⟨hj, hbj⟩)

/-- When no row precedes the date, the index selection is empty. -/
theorem lastIndexBefore_eq_none {cells : List Cell} {d : Nat}
    (h : ∀ i, i < cells.length → rowBefore cells d i = false) :
    lastIndexBefore cells d = none := by
  have hnil : precedingIndices cells d = [] := by
    apply List.filter_eq_nil_iff.mpr
    intro a ha
    simp only [List.mem_range] at ha
    simp [h a ha]
  rw [lastIndexBefore, hnil]
  rfl

/-- Restricting the range below n to the indices below m yields the range
below m. -/
theorem filter_lt_range :
    ∀ n m : Nat, m ≤ n →
      (List.range n).filter (fun i => decide (i < m)) = List.range m := by
  intro n
  induction n with
  | zero =>
    intro m hm
    have : m = 0 := Nat.le_zero.mp hm
    subst this
    rfl
  | succ k ih =>
    intro m hm
    rcases Nat.lt_or_ge m (k + 1) with h | h
    · have hk : m ≤ k := Nat.lt_succ_iff.mp h
      rw [List.range_succ, List.filter_append, ih m hk]
      have hkm : decide (k < m) = false := by
        simp only [decide_eq_false_iff_not]
        omega
      simp [List.filter_cons, hkm]
    · have hm2 : m = k + 1 := Nat.le_antisymm hm h
      subst hm2
      apply List.filter_eq_self.mpr
      intro a ha
      simp only [List.mem_range] at ha
      simp [ha]

/-- The last element of the range below k. -/
theorem getLast_range {k : Nat} (h : 0 < k) :
    (List.range k).getLast? = some (k - 1) := by
  cases k with
  | zero => omega
  | succ m =>
    rw [List.range_succ, List.getLast?_concat]
    simp

/-- Fancy indexing with non-negative (cast) indices is plain positional
lookup. -/
theorem fancyIdx_natCast {α : Type} (xs : List α) :
    ∀ idxs : List Nat,
      fancyIdx xs (idxs.map Int.ofNat) = idxs.mapM (fun i => xs[i]?) := by
  intro idxs
  induction idxs with
  | nil => rfl
  | cons i rest ih =>
    have hcast : Int.ofNat i = (i : ℤ) := rfl
    have helem :
        (resolveIdx xs.length (Int.ofNat i)).bind (fun j => xs[j]?) = xs[i]? := by
      unfold resolveIdx
      rw [hcast]
      have hpos : ¬ ((i : ℤ) < 0) := by omega
      rcases Nat.lt_or_ge i xs.length with h | h
      · have hc : (0 : ℤ) ≤ (i : ℤ) ∧ (i : ℤ) < (xs.length : ℤ) := by omega
        simp only [hpos, if_false, hc, if_true, Int.toNat_natCast]
        rfl
      · have hc : ¬ ((0 : ℤ) ≤ (i : ℤ) ∧ (i : ℤ) < (xs.length : ℤ)) := by
          omega
        have hxs : xs[i]? = none := List.getElem?_eq_none h
        rw [hxs]
        simp only [hpos, if_false, hc]
        rfl
    unfold fancyIdx at ih ⊢
    rw [List.map_cons, List.mapM_cons, List.mapM_cons, helem, ih]

/-- Positional gathering of a filtered index range is the positional filter:
looking up the indices of [k, k+n) that satisfy p collects exactly the
entries of xs.drop k whose absolute position satisfies p. -/
theorem gather_range'_filter {α : Type} (xs : List α) (p : Nat → Bool) :
    ∀ n k : Nat, k + n = xs.length →
      ((List.range' k n).filter p).mapM (fun i => xs[i]?) =
        some (filterIdx p (xs.drop k) k) := by
  intro n
  induction n with
  | zero =>
    intro k hk
    have hdrop : xs.drop k = [] := by
      apply List.drop_eq_nil_of_le
      omega
    rw [hdrop]
    rfl
  | succ n ih =>
    intro k hk
    have hklen : k < xs.length := by omega
    have hdrop : xs.drop k = xs[k] :: xs.drop (k + 1) :=
      List.drop_eq_getElem_cons hklen
    rw [List.range'_succ, hdrop]
    cases hp : p k with
    | true =>
      rw [List.filter_cons]
      simp only [hp, if_true]
      rw [List.mapM_cons, List.getElem?_eq_getElem hklen,
        ih (k + 1) (by omega)]
      simp [filterIdx, hp]
    | false =>
      rw [List.filter_cons]
      simp only [hp, Bool.false_eq_true, if_false]
      rw [ih (k + 1) (by omega)]
      simp [filterIdx, hp]

/-- The train index selection of the month filter is exactly the set of row
indices below the train window count whose month is allowed. -/
theorem iTrainOf_eq_range_filter (cells : List Cell) (months : List Nat)
    (lenTr lenTe : Nat) (hle : lenTr ≤ cells.length) :
    iTrainOf cells months lenTr lenTe =
      (List.range lenTr).filter (rowMonthIn cells months) := by
  unfold iTrainOf iMonthsOf monthIndices
  rw [List.filter_filter, List.filter_filter]
  conv_rhs => rw [← filter_lt_range cells.length lenTr hle]
  rw [List.filter_filter]
  apply List.filter_congr
  intro x _
  by_cases h : x < lenTr
  · have h2 : x < lenTr + lenTe := by omega
    simp [h, h2]
  · simp [h]

/-- C6 (amended): after the date-based split, the month filter restricts the
train subset to exactly those windows whose start row's month is in the
allowed set (gathering the train indices equals the positional month
filter); the test indices are recomputed relative to the test array by
subtracting the train window count, but they are selected relative to the
last retained train index rather than the train/test boundary, so whenever
the train selection is nonempty the test index list retains the negative
index lastTr - lenTr, which numpy resolves from the end of the test array:
not every retained index is a valid non-negative index into its own subset,
and the test subset is not restricted to allowed-month windows. -/
theorem c6_month_filter_amended (cells : List Cell) (months : List Nat)
    (ytr : List (List ℚ)) (lenTr lenTe : Nat)
    (hlen : ytr.length = lenTr) (hle : lenTr ≤ cells.length) :
    fancyIdx ytr ((iTrainOf cells months lenTr lenTe).map Int.ofNat) =
      some (filterIdx (rowMonthIn cells months) ytr 0)
    ∧ ∀ lastTr, (iTrainOf cells months lenTr lenTe).getLast? = some lastTr →
        ((lastTr : ℤ) - (lenTr : ℤ)) ∈ iTestOf cells months lenTr lenTe lastTr
        ∧ (lastTr : ℤ) - (lenTr : ℤ) < 0 := by
  constructor
  · rw [fancyIdx_natCast, iTrainOf_eq_range_filter cells months lenTr lenTe hle,
      ← hlen, List.range_eq_range']
    have h := gather_range'_filter ytr (rowMonthIn cells months) ytr.length 0
      (by omega)
    simpa using h
  · intro lastTr hlast
    have hmem : lastTr ∈ iTrainOf cells months lenTr lenTe := by
      rcases List.getLast?_eq_some_iff.mp hlast with ⟨ys, hys⟩
      rw [hys]
      exact List.mem_append.mpr (Or.inr (List.mem_singleton.mpr rfl))
    have h2 := List.mem_filter.mp hmem
    have hlt : lastTr < lenTr := by simpa using h2.2
    refine ⟨?_, by omega⟩
    unfold iTestOf
    apply List.mem_map.mpr
    exact ⟨lastTr, List.mem_filter.mpr ⟨h2.1, by simp⟩, rfl⟩

/-- C6 (counterexample): on the ten-window dataset with allowed months {1},
only row 2 (month 1) matches. The retained test index list is [-3]; numpy
wraparound selects test window 7 (tag value 17), whose start row's month is
2, outside the allowed set - so the test subset is not restricted to
allowed-month windows and a negative index is retained. -/
theorem c6_month_filter_counterexample :
    trainTestSplitDate ds10 "date / time" 6 (some [1]) =
      Except.ok ([NArr.arr1 [12]], [[2]], [NArr.arr1 [17]], [[7]])
    ∧ rowMonthIn cells10 [1] 7 = false
    ∧ iTestOf cells10 [1] 5 5 2 = [-3] := by
  refine ⟨by decide, by decide, by decide⟩

/-- C7 (amended): when the month filter leaves the train side with no
matching window, train_test_split_date raises IndexError (from i_train[-1]
on an empty index); it does not return empty arrays. -/
theorem c7_empty_filter_amended (cells : List Cell) (months : List Nat)
    (Xtr Xte : List NArr) (ytr yte : List (List ℚ)) (x0 x1 : NArr)
    (h0 : Xtr.head? = some x0) (h1 : Xte.head? = some x1)
    (hempty : iTrainOf cells months x0.shape0 x1.shape0 = []) :
    monthFilterStep cells months Xtr ytr Xte yte =
      Except.error PyError.indexError := by
  unfold monthFilterStep
  rw [h0, h1]
  simp [hempty]

/-- C7 (counterexample): with allowed months {12} no window of the ten-row
dataset matches; train_test_split_date raises IndexError rather than
returning empty arrays. -/
theorem c7_empty_filter_counterexample :
    iTrainOf cells10 [12] 5 5 = []
    ∧ trainTestSplitDate ds10 "date / time" 6 (some [12]) =
        Except.error PyError.indexError := by
  refine ⟨by decide, by decide⟩

/-- C8 (amended): when no row's timestamp precedes the supplied split date,
the date-based split fails with an IndexError, raised by the [-1] lookup on
the empty index of preceding rows - both in train_test_split_date and in the
split computation of process; no DateNotFoundError is defined or raised
anywhere in the code. -/
theorem c8_no_preceding_amended (s : DataSet) (date_col tc : String)
    (splitDate : Nat) (m : Option (List Nat)) (df : CTable)
    (cells : List Cell)
    (hdf : s.df_processed = some df)
    (hcol : df.getCol date_col = some cells)
    (hcol2 : df.getCol "date / time" = some cells)
    (hnone : ∀ i, i < cells.length → rowBefore cells splitDate i = false) :
    trainTestSplitDate s date_col splitDate m = Except.error PyError.indexError
    ∧ processSplitRatio df tc splitDate = Except.error PyError.indexError := by
  have hli := lastIndexBefore_eq_none hnone
  constructor
  · simp [trainTestSplitDate, hdf, hcol, hli]
  · simp [processSplitRatio, dateSplitRatio, hcol2, hli]

/-- C8 (counterexample): on a table whose five rows all carry days after the
split date, the date-based split raises IndexError, which is not the
DateNotFoundError the claim names (no such error is ever constructed by the
code). -/
theorem c8_no_preceding_counterexample :
    trainTestSplitDate dsLate "date / time" 3 none =
      Except.error PyError.indexError
    ∧ processSplitRatio [("date / time", cellsLate)] "time" 3 =
        Except.error PyError.indexError
    ∧ PyError.indexError ≠ PyError.dateNotFoundError := by
  refine ⟨by decide, by decide, by decide⟩

/-- C4 (confirmed): the date-based split locates the last (greatest) row
index whose timestamp strictly precedes the date, converts it to the ratio
index / row_count, and then applies the ratio-based split with that ratio,
feeding its partitions to the month-filter step; the split computation of
process yields the same ratio from the hard-coded time column. -/
theorem c4_date_split_composition (s : DataSet) (date_col : String)
    (splitDate : Nat) (m : Option (List Nat)) (df : CTable)
    (cells : List Cell) (i : Nat) (X : List NArr) (y : List (List ℚ))
    (hdf : s.df_processed = some df)
    (hcol : df.getCol date_col = some cells)
    (hcol2 : df.getCol "date / time" = some cells)
    (hlast : lastIndexBefore cells splitDate = some i)
    (hX : s.X = some X) (hy : s.y = some y) :
    (i < cells.length ∧ rowBefore cells splitDate i = true ∧
      ∀ j, j < cells.length → rowBefore cells splitDate j = true → j ≤ i)
    ∧ dateSplitRatio df date_col splitDate =
        Except.ok ((i : ℚ) / (df.nrows : ℚ))
    ∧ (∀ tc, processSplitRatio df tc splitDate =
        Except.ok ((i : ℚ) / (df.nrows : ℚ)))
    ∧ trainTestSplitDate s date_col splitDate m =
        monthFilterStep cells (m.getD allMonths)
          (trainTestSplit X y ((i : ℚ) / (df.nrows : ℚ))).1
          (trainTestSplit X y ((i : ℚ) / (df.nrows : ℚ))).2.1
          (trainTestSplit X y ((i : ℚ) / (df.nrows : ℚ))).2.2.1
          (trainTestSplit X y ((i : ℚ) / (df.nrows : ℚ))).2.2.2 := by
  refine ⟨lastIndexBefore_spec hlast, ?_, ?_, ?_⟩
  · simp [dateSplitRatio, hcol, hlast]
  · intro tc
    simp [processSplitRatio, dateSplitRatio, hcol2, hlast]
  · simp [trainTestSplitDate, hdf, hcol, hlast, hX, hy]

/-- Witness for C4 on the ten-row dataset: the last index preceding day 6 is
row 5, and the computed ratio is 5/10. -/
theorem c4_witness :
    (5 < cells10.length ∧ rowBefore cells10 6 5 = true ∧
      ∀ j, j < cells10.length → rowBefore cells10 6 j = true → j ≤ 5)
    ∧ dateSplitRatio table10 "date / time" 6 =
        Except.ok (((5 : Nat) : ℚ) / ((table10.nrows : Nat) : ℚ)) := by
  have h := c4_date_split_composition ds10 "date / time" 6 none table10
    cells10 5 ds10X ds10Y rfl (by decide) (by decide) (by decide) rfl rfl
  exact ⟨h.1, h.2.1⟩

/-- C5 (counterexample): on the 100-row table whose row i carries day i
(0-indexed), splitting at the timestamp of row 50 does not compute the ratio
50/100 = 0.5; the computed ratio is 49/100. -/
theorem c5_ratio_counterexample :
    dateSplitRatio table100 "date / time" 50 ≠ Except.ok ((50 : ℚ) / 100)
    ∧ dateSplitRatio table100 "date / time" 50 =
        Except.ok ((49 : ℚ) / 100) := by
  refine ⟨by decide, by decide⟩

/-- C5 (amended): on a table with strictly increasing dates, the date-based
split called with the timestamp of row k (0-indexed, k positive) computes
the split ratio (k-1) / row_count - the numerator is the last row index
strictly preceding the date, not the count k of preceding rows; for the
100-row scenario this is 49/100, not 50/100. -/
theorem c5_ratio_amended (df : CTable) (date_col : String)
    (ts : List Timestamp) (k d : Nat) (trow : Timestamp)
    (hcol : df.getCol date_col = some (ts.map Cell.time))
    (hsorted : ts.Pairwise (fun a b => a.day < b.day))
    (hk : k < ts.length) (h0 : 0 < k)
    (hget : ts[k]? = some trow) (hd : d = trow.day) :
    dateSplitRatio df date_col d =
      Except.ok (((k - 1 : Nat) : ℚ) / (df.nrows : ℚ)) := by
  have hpw := List.pairwise_iff_getElem.mp hsorted
  have ht : ts[k] = trow := by
    rw [List.getElem?_eq_getElem hk] at hget
    exact Option.some.inj hget
  have hlen : (List.map Cell.time ts).length = ts.length := by simp
  have hlast : lastIndexBefore (ts.map Cell.time) d = some (k - 1) := by
    unfold lastIndexBefore precedingIndices
    have hcongr : ∀ x ∈ List.range (List.map Cell.time ts).length,
        rowBefore (ts.map Cell.time) d x = decide (x < k) := by
      intro x hx
      rw [List.mem_range, hlen] at hx
      unfold rowBefore
      rw [List.getElem?_map, List.getElem?_eq_getElem hx]
      show decide (ts[x].day < d) = decide (x < k)
      by_cases hxk : x < k
      · have hlt := hpw x k hx hk hxk
        rw [ht] at hlt
        rw [hd]
        simp [hlt, hxk]
      · rcases Nat.eq_or_lt_of_le (Nat.le_of_not_lt hxk) with heq | hlt
        · subst heq
          rw [ht, hd]
          simp
        · have hgt := hpw k x hk hx hlt
          rw [ht] at hgt
          have hnot : ¬ (ts[x].day < d) := by
            rw [hd]
            omega
          simp [hnot, hxk]
    rw [List.filter_congr hcongr, hlen,
      filter_lt_range ts.length k (Nat.le_of_lt hk)]
    exact getLast_range h0
  simp [dateSplitRatio, hcol, hlast]

/-- Witness for C5 (amended) on the 100 strictly increasing daily
timestamps: splitting at the date of row 50 computes the ratio 49/100. -/
theorem c5_witness :
    dateSplitRatio table100 "date / time" 50 =
      Except.ok (((50 - 1 : Nat) : ℚ) / ((table100.nrows : Nat) : ℚ)) := by
  exact c5_ratio_amended table100 "date / time"
    ((List.range 100).map (fun i => ⟨i, 1⟩)) 50 50 ⟨50, 1⟩
    (by decide) (by decide) (by decide) (by decide) (by decide) rfl

/-- C10 (confirmed): the split-ratio computation of process reads the
hard-coded column "date / time": on a dataframe lacking that column it
raises KeyError "date / time" even when time_col names an existing timestamp
column, and its result never depends on the time_col argument. -/
theorem c10_hardcoded_time_column (df : CTable) (time_col : String) (d : Nat)
    (hmiss : df.hasCol "date / time" = false)
    (hhave : df.hasCol time_col = true) :
    processSplitRatio df time_col d =
      Except.error (PyError.keyError "date / time")
    ∧ ∀ tc : String, processSplitRatio df tc d =
        processSplitRatio df time_col d := by
  have hnone : df.getCol "date / time" = none := by
    unfold CTable.hasCol at hmiss
    cases h : df.getCol "date / time" with
    | none => rfl
    | some v =>
      rw [h] at hmiss
      simp at hmiss
  exact ⟨by simp [processSplitRatio, dateSplitRatio, hnone],
    fun tc => rfl⟩

/-- Witness for C10: a table holding only a column named ts. -/
theorem c10_witness :
    processSplitRatio [("ts", [Cell.time ⟨0, 1⟩])] "ts" 5 =
      Except.error (PyError.keyError "date / time")
    ∧ ∀ tc : String, processSplitRatio [("ts", [Cell.time ⟨0, 1⟩])] tc 5 =
        processSplitRatio [("ts", [Cell.time ⟨0, 1⟩])] "ts" 5 :=
  c10_hardcoded_time_column [("ts", [Cell.time ⟨0, 1⟩])] "ts" 5
    (by decide) (by decide)

/-- C9 (confirmed): process always stores the four-element X list
[X_encoder, X_decoder, y_shifted, y_last], independently of the
autoregressive flag, while process_from_config stores three elements
[X_encoder, X_decoder, y_last] when the flag holds and two otherwise; the
two stored X lists never have the same number of elements. -/
theorem c9_x_list_lengths (a a2 ar : Bool) (b b2 : SeqBundle) :
    (processXAssignment a b).length = 4
    ∧ processXAssignment a b = processXAssignment a2 b
    ∧ (fromConfigXAssignment ar b2).length = (if ar then 3 else 2)
    ∧ (processXAssignment a b).length ≠ (fromConfigXAssignment ar b2).length := by
  refine ⟨rfl, rfl, ?_, ?_⟩ <;>
    cases ar <;> simp [processXAssignment, fromConfigXAssignment]

/-- C1 (confirmed): loading a saved DataSet configuration succeeds and
restores the saved in-memory state - the encoder and decoder feature lists,
the target name, the temporal-encoding pairs, the autoregressive flag, the
input and output window lengths and the four pickled transformers - and
therefore the deterministic replay steps of process_from_config, run on the
same processed data, produce exactly the results they produce from the
original fitted state. -/
theorem c1_save_load_roundtrip (s s0 : DataSet)
    (hdf : s0.df_processed = s.df_processed) :
    (loadDatasetConfig s0 (saveDatasetConfig s)).1 = Except.ok ()
    ∧ (loadDatasetConfig s0 (saveDatasetConfig s)).2 =
        { s0 with
          features_input_encoder := s.features_input_encoder,
          features_input_decoder := s.features_input_decoder,
          feature_target := s.feature_target,
          temporal_encodings := s.temporal_encodings,
          autoregressive := s.autoregressive,
          input_seq_len := s.input_seq_len,
          output_seq_len := s.output_seq_len,
          nan_handler := s.nan_handler,
          one_hot_encoder := s.one_hot_encoder,
          scaler_X := s.scaler_X,
          scaler_y := s.scaler_y }
    ∧ configReplaySteps (loadDatasetConfig s0 (saveDatasetConfig s)).2 =
        configReplaySteps s := by
  refine ⟨rfl, rfl, ?_⟩
  show replayCore s.features_input_encoder s.features_input_decoder
      s.feature_target s.temporal_encodings s.autoregressive s.input_seq_len
      s.output_seq_len s.nan_handler s.one_hot_encoder s.scaler_X s.scaler_y
      s0.df_processed = configReplaySteps s
  rw [hdf]
  rfl

/-- Witness for C1: round trip of the fitted state through a fresh DataSet
that shares its processed table. -/
theorem c1_witness :
    (loadDatasetConfig dsBlank2 (saveDatasetConfig sFit)).1 = Except.ok ()
    ∧ (loadDatasetConfig dsBlank2 (saveDatasetConfig sFit)).2 =
        { dsBlank2 with
          features_input_encoder := sFit.features_input_encoder,
          features_input_decoder := sFit.features_input_decoder,
          feature_target := sFit.feature_target,
          temporal_encodings := sFit.temporal_encodings,
          autoregressive := sFit.autoregressive,
          input_seq_len := sFit.input_seq_len,
          output_seq_len := sFit.output_seq_len,
          nan_handler := sFit.nan_handler,
          one_hot_encoder := sFit.one_hot_encoder,
          scaler_X := sFit.scaler_X,
          scaler_y := sFit.scaler_y }
    ∧ configReplaySteps (loadDatasetConfig dsBlank2 (saveDatasetConfig sFit)).2 =
        configReplaySteps sFit :=
  c1_save_load_roundtrip sFit dsBlank2 rfl

/-- C2 (counterexample): loading from a directory whose NaNHandler.pkl is
missing fails with FileNotFoundError (not a ConfigLoadError, which the code
never constructs), and the DataSet state is partially populated: the
encoder feature list has already been overwritten when the error is
raised. -/
theorem c2_partial_population_counterexample :
    (loadDatasetConfig sBlank storeMissingNan).1 =
      Except.error (PyError.fileNotFoundError "NaNHandler.pkl")
    ∧ (loadDatasetConfig sBlank storeMissingNan).2.features_input_encoder ≠
        sBlank.features_input_encoder
    ∧ ∀ a : String, (loadDatasetConfig sBlank storeMissingNan).1 ≠
        Except.error (PyError.configLoadError a) := by
  refine ⟨by decide, by decide, ?_⟩
  intro a h
  have h1 : (loadDatasetConfig sBlank storeMissingNan).1 =
      Except.error (PyError.fileNotFoundError "NaNHandler.pkl") := by decide
  rw [h1] at h
  simp at h

/-- C2 (amended): when the dataset_config document is readable but the
pickled NaNHandler artifact is missing, load_dataset_config fails with the
underlying FileNotFoundError naming that file, and the seven configuration
attributes read from the document keep their newly assigned values: the
state is partially populated rather than left as it was. -/
theorem c2_load_failure_amended (s : DataSet) (st : Store)
    (d : List (String × JVal)) (v1 v2 : Option (List String))
    (v3 : Option String) (v4 : List (String × TemporalEncoding)) (v5 : Bool)
    (v6 v7 : Option Nat)
    (hd : st.dataset_config = Artifact.good d)
    (h1 : jGetStrListOpt d "features_input_encoder" = Except.ok v1)
    (h2 : jGetStrListOpt d "features_input_decoder" = Except.ok v2)
    (h3 : jGetStrOpt d "feature_target" = Except.ok v3)
    (h4 : jGetTencs d "temporal_encoding" = Except.ok v4)
    (h5 : jGetBool d "autoregressive" = Except.ok v5)
    (h6 : jGetNatOpt d "input_seq_len" = Except.ok v6)
    (h7 : jGetNatOpt d "output_seq_len" = Except.ok v7)
    (hnan : st.nanHandlerFile = Artifact.missing) :
    loadDatasetConfig s st =
      (Except.error (PyError.fileNotFoundError "NaNHandler.pkl"),
       { s with
         features_input_encoder := v1,
         features_input_decoder := v2,
         feature_target := v3,
         temporal_encodings := v4,
         autoregressive := v5,
         input_seq_len := v6,
         output_seq_len := v7 }) := by
  simp only [loadDatasetConfig, hd, h1, h2, h3, h4, h5, h6, h7, hnan,
    unpickleFile]

/-- Witness for C2 (amended) on the fitted state's store with the NaNHandler
artifact removed. -/
theorem c2_witness :
    loadDatasetConfig sBlank storeMissingNan =
      (Except.error (PyError.fileNotFoundError "NaNHandler.pkl"),
       { sBlank with
         features_input_encoder := some ["a"],
         features_input_decoder := some ["b"],
         feature_target := some "tg",
         temporal_encodings := [("months", [(1, (1 : ℚ)/2)])],
         autoregressive := true,
         input_seq_len := some 2,
         output_seq_len := some 1 }) :=
  c2_load_failure_amended sBlank storeMissingNan
    [("features_input_encoder", JVal.jStrListOpt (some ["a"])),
     ("features_input_decoder", JVal.jStrListOpt (some ["b"])),
     ("feature_target", JVal.jStrOpt (some "tg")),
     ("temporal_encoding", JVal.jTencs [("months", [(1, (1 : ℚ)/2)])]),
     ("autoregressive", JVal.jBool true),
     ("input_seq_len", JVal.jNatOpt (some 2)),
     ("output_seq_len", JVal.jNatOpt (some 1))]
    (some ["a"]) (some ["b"]) (some "tg") [("months", [(1, (1 : ℚ)/2)])]
    true (some 2) (some 1)
    rfl rfl rfl rfl rfl rfl rfl rfl rfl

/-- C3 (code-bug evidence): process_from_config called with explicit window
length overrides 20 and 8 on a configuration storing lengths 2 and 1 behaves
exactly as the call without overrides: the final state keeps the stored
lengths 2 and 1, the call succeeds (a 10-row table could not produce
20+8-windows), and the extracted encoder array has the 8 = 10-2-1+1 windows
of the stored lengths. -/
theorem c3_overrides_clobbered_by_load :
    processFromConfig dsReplay (saveDatasetConfig sFit) (some 20) (some 8) =
      processFromConfig dsReplay (saveDatasetConfig sFit) none none
    ∧ (processFromConfig dsReplay (saveDatasetConfig sFit)
        (some 20) (some 8)).2.input_seq_len = some 2
    ∧ (processFromConfig dsReplay (saveDatasetConfig sFit)
        (some 20) (some 8)).2.output_seq_len = some 1
    ∧ (processFromConfig dsReplay (saveDatasetConfig sFit)
        (some 20) (some 8)).1 = Except.ok ()
    ∧ ((processFromConfig dsReplay (saveDatasetConfig sFit)
        (some 20) (some 8)).2.X.map (fun l => l.map NArr.shape0)) =
          some [8, 8, 8] := by
  refine ⟨by decide, by decide, by decide, by decide, by decide⟩

/-- Witness for C6 (amended) on the ten-row dataset with allowed months
{1}: train selection both computed and characterized, and the retained
negative test index. -/
theorem c6_witness :
    fancyIdx [[(0 : ℚ)], [1], [2], [3], [4]]
        ((iTrainOf cells10 [1] 5 5).map Int.ofNat) =
      some (filterIdx (rowMonthIn cells10 [1]) [[(0 : ℚ)], [1], [2], [3], [4]] 0)
    ∧ ∀ lastTr, (iTrainOf cells10 [1] 5 5).getLast? = some lastTr →
        ((lastTr : ℤ) - (5 : ℤ)) ∈ iTestOf cells10 [1] 5 5 lastTr
        ∧ (lastTr : ℤ) - (5 : ℤ) < 0 :=
  c6_month_filter_amended cells10 [1] [[0], [1], [2], [3], [4]] 5 5
    rfl (by decide)

/-- Witness for C7 (amended): one train array of five windows and one test
array of one window, no window matching month 12. -/
theorem c7_witness :
    monthFilterStep cells10 [12] [NArr.arr1 [1, 2, 3, 4, 5]] [[1]]
      [NArr.arr1 [6]] [[6]] = Except.error PyError.indexError :=
  c7_empty_filter_amended cells10 [12] [NArr.arr1 [1, 2, 3, 4, 5]]
    [NArr.arr1 [6]] [[1]] [[6]] (NArr.arr1 [1, 2, 3, 4, 5]) (NArr.arr1 [6])
    rfl rfl (by decide)

/-- Witness for C8 (amended) on the table whose rows all follow the split
date. -/
theorem c8_witness :
    trainTestSplitDate dsLate "date / time" 3 none =
      Except.error PyError.indexError
    ∧ processSplitRatio [("date / time", cellsLate)] "t" 3 =
        Except.error PyError.indexError :=
  c8_no_preceding_amended dsLate "date / time" "t" 3 none
    [("date / time", cellsLate)] cellsLate rfl (by decide) (by decide)
    (by decide)
